import Mathlib

/-!
Shallow embedding of the course-progress subsystem of the `topgrade_api`
Django application, and verification of the spec's claims about it.

Conventions of the embedding:
* Django model instances become Lean structures; the database becomes
  explicit lists of rows, one list per table.
* `DecimalField`/float percentages are modelled over `ℚ`.
* `PositiveIntegerField` columns are modelled as `ℕ` (the backing column
  carries a `>= 0` check constraint).
* timestamps are abstract `ℕ` clock values; `auto_now` fields receive the
  current clock on save.
* ORM `get`/`filter`/`get_or_create`/`create` become `List.find?`,
  `List.filter` and explicit insert-or-lookup; a `create` that would hit a
  database `UniqueConstraint` is modelled as the request-level 500 error
  the view's generic `except` handler produces.
* the dummy payment gateway's random outcome is a Boolean parameter.
-/

namespace Topgrade

/-- `UserTopicProgress.PROGRESS_STATUS_CHOICES` in `models.py`. -/
inductive ProgressStatus
  | not_started
  | in_progress
  | completed
deriving DecidableEq, Repr

/-- Rank of a progress status along the linear order
`not_started → in_progress → completed`. -/
def ProgressStatus.rank : ProgressStatus → Nat
  | .not_started => 0
  | .in_progress => 1
  | .completed => 2

/-- `UserPurchase.PURCHASE_STATUS_CHOICES` in `models.py`. -/
inductive PurchaseStatus
  | pending
  | completed
  | cancelled
deriving DecidableEq, Repr

/-- The `Program` model (`models.py`), restricted to the columns the
purchase and learning flows read.  A topic's syllabus chain
(`topic.syllabus.program`) is flattened into `Topic.programId`. -/
structure Program where
  id : Nat
  title : String
  price : ℚ
  discount_percentage : ℚ
deriving DecidableEq, Repr

/-- `Program.discounted_price` property (`models.py`). -/
def Program.discounted_price (p : Program) : ℚ :=
  if p.discount_percentage > 0 then
    p.price - (p.price * p.discount_percentage) / 100
  else p.price

/-- The `Topic` model (`models.py`): a video inside a syllabus module of a
program.  `video_duration` is a free-text `MM:SS` / `HH:MM:SS` field that
may be NULL or blank. -/
structure Topic where
  id : Nat
  programId : Nat
  topic_title : String
  video_duration : Option String
deriving DecidableEq, Repr

/-- The `UserPurchase` model (`models.py`): links a user to a program, with
a `UniqueConstraint` on `(user, program)` named
`unique_user_program_purchase`. -/
structure UserPurchase where
  id : Nat
  userId : Nat
  programId : Nat
  status : PurchaseStatus
  amount_paid : ℚ
  require_goldpass : Bool
deriving DecidableEq, Repr

/-- The `UserTopicProgress` model (`models.py`): per-user, per-topic video
progress, with a `UniqueConstraint` on `(user, topic)` named
`unique_user_topic_progress`. -/
structure UserTopicProgress where
  userId : Nat
  purchaseId : Nat
  topicId : Nat
  status : ProgressStatus
  watch_time_seconds : Nat
  total_duration_seconds : Nat
  completion_percentage : ℚ
  started_at : Option Nat
  completed_at : Option Nat
  last_watched_at : Nat
deriving DecidableEq, Repr

/-- The `UserCourseProgress` model (`models.py`): per-purchase rollup of
topic progress; `purchase` carries `unique=True`. -/
structure UserCourseProgress where
  id : Nat
  userId : Nat
  purchaseId : Nat
  total_topics : Nat
  completed_topics : Nat
  in_progress_topics : Nat
  total_watch_time_seconds : Nat
  completion_percentage : ℚ
  is_completed : Bool
  started_at : Option Nat
  completed_at : Option Nat
  last_activity_at : Nat
deriving DecidableEq, Repr

/-- The `UserCertificate` model: one generated certificate of a given type
for a completed course progress. -/
structure UserCertificate where
  userId : Nat
  courseProgressId : Nat
  programId : Nat
  certificate_type : String
  status : String
  certificate_number : String
deriving DecidableEq, Repr

/-- The percentage formula `min(100, (watch / duration) * 100)` shared by
`watch_percentage`, `UserTopicProgress.update_progress` and the
`/learning/update-progress` view. -/
def capPercent (w d : Nat) : ℚ :=
  min 100 ((w : ℚ) / (d : ℚ) * 100)

/-- `UserTopicProgress.is_completed` property (`models.py`). -/
def UserTopicProgress.is_completed (p : UserTopicProgress) : Bool :=
  p.status = ProgressStatus.completed

/-- `UserTopicProgress.watch_percentage` property (`models.py`). -/
def UserTopicProgress.watch_percentage (p : UserTopicProgress) : ℚ :=
  if p.total_duration_seconds = 0 then 0
  else capPercent p.watch_time_seconds p.total_duration_seconds

/-- The duration after `UserTopicProgress.update_progress`'s
`if total_duration_seconds:` assignment (Python truthiness: `None` and
`0` both leave the stored duration unchanged). -/
def UserTopicProgress.newDuration (p : UserTopicProgress)
    (total_duration_seconds : Option Nat) : Nat :=
  match total_duration_seconds with
  | some d => if d ≠ 0 then d else p.total_duration_seconds
  | none => p.total_duration_seconds

/-- The completion percentage after `UserTopicProgress.update_progress`'s
`if self.total_duration_seconds > 0:` recomputation. -/
def UserTopicProgress.newCompletion (p : UserTopicProgress)
    (watch_time_seconds : Nat) (total_duration_seconds : Option Nat) : ℚ :=
  if p.newDuration total_duration_seconds > 0 then
    capPercent watch_time_seconds (p.newDuration total_duration_seconds)
  else p.completion_percentage

/-- `UserTopicProgress.update_progress` method (`models.py`): sets the
watch time, optionally the duration, recomputes the percentage when the
duration is positive, then derives the status from the 90% threshold.
`now` is the clock used for the `timezone.now()` timestamps. -/
def UserTopicProgress.update_progress (p : UserTopicProgress)
    (watch_time_seconds : Nat) (total_duration_seconds : Option Nat)
    (now : Nat) : UserTopicProgress :=
  let p3 := { p with
    watch_time_seconds := watch_time_seconds,
    total_duration_seconds := p.newDuration total_duration_seconds,
    completion_percentage := p.newCompletion watch_time_seconds total_duration_seconds }
  if p3.completion_percentage ≥ 90 then
    { p3 with status := ProgressStatus.completed,
              completed_at := match p3.completed_at with
                              | some t => some t
                              | none => some now,
              last_watched_at := now }
  else if p3.completion_percentage > 0 then
    { p3 with status := ProgressStatus.in_progress,
              started_at := match p3.started_at with
                            | some t => some t
                            | none => some now,
              last_watched_at := now }
  else { p3 with last_watched_at := now }

/-- `UserCourseProgress.update_progress` method (`models.py`): recomputes
the rollup from the `UserTopicProgress` rows of the same user and
purchase. -/
def UserCourseProgress.update_progress (cp : UserCourseProgress)
    (topicProgressTable : List UserTopicProgress) (now : Nat) :
    UserCourseProgress :=
  let tp := topicProgressTable.filter
    (fun (r : UserTopicProgress) => r.userId == cp.userId && r.purchaseId == cp.purchaseId)
  let c1 := { cp with
    total_topics := tp.length,
    completed_topics :=
      ((tp.filter (fun (r : UserTopicProgress) => r.status == ProgressStatus.completed)).length),
    in_progress_topics :=
      ((tp.filter (fun (r : UserTopicProgress) => r.status == ProgressStatus.in_progress)).length) }
  let c2 :=
    if c1.total_topics > 0 then
      { c1 with completion_percentage :=
          ((c1.completed_topics : ℚ) / (c1.total_topics : ℚ) * 100) }
    else c1
  let c3 :=
    if c2.completion_percentage ≥ 100 then
      { c2 with is_completed := true,
                completed_at := match c2.completed_at with
                                | some t => some t
                                | none => some now }
    else c2
  let c4 :=
    if c3.completion_percentage > 0 && c3.started_at == none then
      { c3 with started_at := some now }
    else c3
  { c4 with
    total_watch_time_seconds :=
      ((tp.map (fun (r : UserTopicProgress) => r.watch_time_seconds)).sum),
    last_activity_at := now }

/-! ### The learning API (`views/learning_view.py`) -/

/-- HTTP outcome of a view: `success` is the 200 JSON payload path, the
other constructors carry the `JsonResponse` error message for status
400 / 404 / 500 respectively. -/
inductive ApiResponse
  | success
  | badRequest (msg : String)
  | notFound (msg : String)
  | serverError (msg : String)
deriving DecidableEq, Repr

/-- `UpdateProgressSchema` (`schemas.py`): the POST body of
`/learning/update-progress`.  `watch_time_seconds` is a plain `int`, so it
may be negative on the wire. -/
structure UpdateProgressSchema where
  topic_id : Nat
  purchase_id : Nat
  watch_time_seconds : Int
deriving DecidableEq, Repr

/-- The database state: one list of rows per Django table used by the
flows under verification. -/
structure Database where
  programs : List Program
  purchases : List UserPurchase
  topics : List Topic
  topic_progress : List UserTopicProgress
  course_progress : List UserCourseProgress
  certificates : List UserCertificate
deriving DecidableEq, Repr

/-- Duration-string parsing in `update_learning_progress`
(`learning_view.py`): `"MM:SS"` or `"HH:MM:SS"`, anything else is `None`.
The stored column is a `PositiveIntegerField`, so components are modelled
as decimal digit strings. -/
def parseDurationSeconds (s : String) : Option Nat :=
  match s.splitOn ":" with
  | [m, sec] =>
    match m.toNat?, sec.toNat? with
    | some mv, some sv => some (mv * 60 + sv)
    | _, _ => none
  | [h, m, sec] =>
    match h.toNat?, m.toNat?, sec.toNat? with
    | some hv, some mv, some sv => some (hv * 3600 + mv * 60 + sv)
    | _, _, _ => none
  | _ => none

/-- `total_duration = video_duration or 1800` in `update_learning_progress`:
a NULL or blank `video_duration`, an unparseable one, or a parsed value of
`0` (falsy in Python) all fall back to the 30-minute default. -/
def effectiveDuration (t : Topic) : Nat :=
  let vd :=
    match t.video_duration with
    | some s => if s = "" then none else parseDurationSeconds s
    | none => none
  match vd with
  | some d => if d = 0 then 1800 else d
  | none => 1800

/-- Row predicate for the `get_or_create(user=..., purchase=..., topic=...)`
lookup on `UserTopicProgress`. -/
def tpMatches (userId purchaseId topicId : Nat) (r : UserTopicProgress) : Bool :=
  r.userId == userId && r.purchaseId == purchaseId && r.topicId == topicId

/-- The in-place topic-progress update of `update_learning_progress`
(`learning_view.py` lines 226-241): watch time is maxed with the stored
value, the percentage is recomputed capped at 100, and the status is
derived from the 90% threshold.  Unlike the model method, the endpoint
does not touch `started_at` on the `in_progress` branch. -/
def applyWatchUpdate (row : UserTopicProgress) (submitted : Nat)
    (total_duration : Nat) (now : Nat) : UserTopicProgress :=
  let w := max row.watch_time_seconds submitted
  let cp : ℚ := capPercent w total_duration
  let row1 := { row with
    watch_time_seconds := w,
    total_duration_seconds := total_duration,
    last_watched_at := now,
    completion_percentage := cp }
  if cp ≥ 90 then
    { row1 with status := ProgressStatus.completed,
                completed_at := (match row1.completed_at with
                                 | some t => some t
                                 | none => some now) }
  else if cp > 0 then
    { row1 with status := ProgressStatus.in_progress }
  else row1

/-- Outcome of `/learning/update-progress`: the HTTP response, the
database afterwards, and on success the saved topic and course rows that
the 200 JSON body echoes back. -/
structure UpdateOutcome where
  response : ApiResponse
  db : Database
  topicRow : Option UserTopicProgress
  courseRow : Option UserCourseProgress
deriving DecidableEq, Repr

/-- A primary key unused by the `course_progress` table (Django assigns
the next serial on `create`). -/
def freshCourseProgressId (db : Database) : Nat :=
  (db.course_progress.map (fun (c : UserCourseProgress) => c.id)).foldl max 0 + 1

/-- A primary key unused by the `purchases` table. -/
def freshPurchaseId (db : Database) : Nat :=
  (db.purchases.map (fun (p : UserPurchase) => p.id)).foldl max 0 + 1

/-- The `defaults` of the topic-progress `get_or_create` in
`update_learning_progress`. -/
def freshTopicRow (userId purchaseId topicId total_duration now : Nat) :
    UserTopicProgress :=
  { userId := userId, purchaseId := purchaseId, topicId := topicId,
    status := ProgressStatus.not_started, watch_time_seconds := 0,
    total_duration_seconds := total_duration, completion_percentage := 0,
    started_at := none, completed_at := none, last_watched_at := now }

/-- The `defaults` of the course-progress `get_or_create` in
`update_learning_progress`. -/
def freshCourseRow (db : Database) (userId purchaseId now : Nat) :
    UserCourseProgress :=
  { id := freshCourseProgressId db, userId := userId,
    purchaseId := purchaseId, total_topics := 0, completed_topics := 0,
    in_progress_topics := 0, total_watch_time_seconds := 0,
    completion_percentage := 0, is_completed := false, started_at := none,
    completed_at := none, last_activity_at := now }

/-- The course-rollup tail of `update_learning_progress` (`learning_view.py`
lines 257-289): recounts topics and topic-progress rows against the state
in which the topic row was already saved (`savedTP`), then saves the
course row `c` back into `cpTable`. -/
def courseRollup (db : Database) (userId : Nat) (purchase : UserPurchase)
    (savedTP : List UserTopicProgress) (now : Nat) (c : UserCourseProgress)
    (cpTable : List UserCourseProgress) (row2 : UserTopicProgress) :
    UpdateOutcome :=
  let total_topics :=
    (db.topics.filter (fun (t : Topic) => t.programId == purchase.programId)).length
  let completed_topics :=
    (savedTP.filter (fun (r : UserTopicProgress) =>
      r.userId == userId && r.purchaseId == purchase.id &&
      r.status == ProgressStatus.completed)).length
  let in_progress_topics :=
    (savedTP.filter (fun (r : UserTopicProgress) =>
      r.userId == userId && r.purchaseId == purchase.id &&
      r.status == ProgressStatus.in_progress)).length
  let total_watch_time :=
    (((savedTP.filter (fun (r : UserTopicProgress) =>
      r.userId == userId && r.purchaseId == purchase.id)).map
        (fun (r : UserTopicProgress) => r.watch_time_seconds)).sum)
  let course_completion : ℚ :=
    if total_topics > 0 then (completed_topics : ℚ) / (total_topics : ℚ) * 100
    else 0
  let c2 := { c with
    completion_percentage := course_completion,
    completed_topics := completed_topics,
    in_progress_topics := in_progress_topics,
    total_topics := total_topics,
    is_completed := decide (course_completion ≥ 100),
    total_watch_time_seconds := total_watch_time,
    last_activity_at := now }
  let savedCP := cpTable.map (fun (x : UserCourseProgress) =>
    if x.userId == userId && x.purchaseId == purchase.id then c2 else x)
  ⟨ApiResponse.success,
   { db with topic_progress := savedTP, course_progress := savedCP },
   some row2, some c2⟩

/-- Middle stage of `update_learning_progress`: the topic-progress row
`row` (already existing, or the freshly created default already appended
to `tpTable`) is updated and saved, then the course progress is fetched or
created and rolled up.  A `create` of a course row for a purchase that
already has one would violate `UserCourseProgress.purchase`'s
`unique=True` and surface as the view's generic 500 handler. -/
def saveAndRollup (db : Database) (userId : Nat) (purchase : UserPurchase)
    (topic : Topic) (total_duration : Nat) (row : UserTopicProgress)
    (tpTable : List UserTopicProgress) (data : UpdateProgressSchema)
    (now : Nat) : UpdateOutcome :=
  let row2 := applyWatchUpdate row data.watch_time_seconds.toNat total_duration now
  let savedTP := tpTable.map (fun (r : UserTopicProgress) =>
    if tpMatches userId purchase.id topic.id r then row2 else r)
  match db.course_progress.find? (fun (c : UserCourseProgress) =>
      c.userId == userId && c.purchaseId == purchase.id) with
  | some c => courseRollup db userId purchase savedTP now c db.course_progress row2
  | none =>
    if db.course_progress.any (fun (c : UserCourseProgress) =>
        c.purchaseId == purchase.id) then
      ⟨ApiResponse.serverError "Error updating progress: IntegrityError", db,
       none, none⟩
    else
      let freshC := freshCourseRow db userId purchase.id now
      courseRollup db userId purchase savedTP now freshC
        (db.course_progress ++ [freshC]) row2

/-- `update_learning_progress` (`learning_view.py`): negative watch time is
rejected first; then the completed purchase and the topic are looked up,
the topic must belong to the purchased program, the topic-progress row is
fetched or created (a `create` colliding with the `(user, topic)`
`UniqueConstraint` surfaces as the generic 500 handler), updated, and the
course progress recomputed. -/
def update_learning_progress (db : Database) (userId : Nat)
    (data : UpdateProgressSchema) (now : Nat) : UpdateOutcome :=
  if data.watch_time_seconds < 0 then
    ⟨ApiResponse.badRequest "Invalid watch time value", db, none, none⟩
  else
    match db.purchases.find? (fun (p : UserPurchase) =>
        p.id == data.purchase_id && p.userId == userId &&
        p.status == PurchaseStatus.completed) with
    | none =>
      ⟨ApiResponse.notFound "Purchase not found or access denied", db,
       none, none⟩
    | some purchase =>
      match db.topics.find? (fun (t : Topic) => t.id == data.topic_id) with
      | none => ⟨ApiResponse.notFound "Topic not found", db, none, none⟩
      | some topic =>
        if topic.programId ≠ purchase.programId then
          ⟨ApiResponse.badRequest "Topic does not belong to the purchased program",
           db, none, none⟩
        else
          let total_duration := effectiveDuration topic
          match db.topic_progress.find? (tpMatches userId purchase.id topic.id) with
          | some row =>
            saveAndRollup db userId purchase topic total_duration row
              db.topic_progress data now
          | none =>
            if db.topic_progress.any (fun (r : UserTopicProgress) =>
                r.userId == userId && r.topicId == topic.id) then
              ⟨ApiResponse.serverError "Error updating progress: IntegrityError",
               db, none, none⟩
            else
              let fresh := freshTopicRow userId purchase.id topic.id total_duration now
              saveAndRollup db userId purchase topic total_duration fresh
                (db.topic_progress ++ [fresh]) data now

/-! ### The purchase API (`views/purchase_view.py`) -/

/-- Outcome of `/purchase`: the HTTP response and the database
afterwards. -/
structure PurchaseOutcome where
  response : ApiResponse
  db : Database
deriving DecidableEq, Repr

/-- `purchase_course` (`purchase_view.py`): validates the program id (a
falsy `program_id`, i.e. `0`, is a 400), refuses a second purchase when a
completed one exists, runs the dummy payment gateway (its random outcome
is the `payment_success` parameter), then creates the purchase with
status `completed` and the initial course-progress row.  A `create` that
collides with the `(user, program)` `UniqueConstraint`
(`unique_user_program_purchase`) surfaces as the view's generic 500
handler.  By referential integrity the fresh purchase id has no
course-progress row, so its `get_or_create` always creates. -/
def purchase_course (db : Database) (userId : Nat) (program_id : Nat)
    (payment_success : Bool) (now : Nat) : PurchaseOutcome :=
  if program_id == 0 then
    ⟨ApiResponse.badRequest "program_id is required", db⟩
  else
    match db.programs.find? (fun (pr : Program) => pr.id == program_id) with
    | none => ⟨ApiResponse.notFound "Program not found", db⟩
    | some program =>
      match db.purchases.find? (fun (p : UserPurchase) =>
          p.userId == userId && p.programId == program.id &&
          p.status == PurchaseStatus.completed) with
      | some _ =>
        ⟨ApiResponse.badRequest "You have already purchased this course", db⟩
      | none =>
        if payment_success = false then
          ⟨ApiResponse.badRequest "Payment failed. Please try again.", db⟩
        else
          if db.purchases.any (fun (p : UserPurchase) =>
              p.userId == userId && p.programId == program.id) then
            ⟨ApiResponse.serverError "Error processing purchase: IntegrityError", db⟩
          else
            let purchase : UserPurchase := {
              id := freshPurchaseId db, userId := userId,
              programId := program.id, status := PurchaseStatus.completed,
              amount_paid := program.discounted_price,
              require_goldpass := false }
            let total :=
              (db.topics.filter (fun (t : Topic) => t.programId == program.id)).length
            let freshC : UserCourseProgress := {
              id := freshCourseProgressId db, userId := userId,
              purchaseId := purchase.id, total_topics := total,
              completed_topics := 0, in_progress_topics := 0,
              total_watch_time_seconds := 0, completion_percentage := 0,
              is_completed := false, started_at := none, completed_at := none,
              last_activity_at := now }
            ⟨ApiResponse.success,
             { db with purchases := db.purchases ++ [purchase],
                       course_progress := db.course_progress ++ [freshC] }⟩

/-! ### Certificate generation (`dashboard/views/student_certificate_view.py`) -/

/-- The certificate types built by `generate_bulk_certificates`
(`dashboard/utils/internship_certificate_generator.py`): four base types,
plus `placement` when the purchase requires GoldPass. -/
def certificate_types_for (include_placement : Bool) : List String :=
  if include_placement then
    ["internship", "training", "credit", "recommendation", "placement"]
  else
    ["internship", "training", "credit", "recommendation"]

/-- The certificate row built by `generate_certificate_ajax`'s
`get_or_create` defaults (file path aside, which is storage, not the
relational record). -/
def mkCertificate (uid cpId pgId : Nat) (ctype num : String) :
    UserCertificate :=
  { userId := uid, courseProgressId := cpId, programId := pgId,
    certificate_type := ctype, status := "pending",
    certificate_number := num }

/-- Row predicate for the `get_or_create` lookup on `UserCertificate`. -/
def certMatches (userId cpId programId : Nat) (ctype : String)
    (c : UserCertificate) : Bool :=
  c.userId == userId && c.courseProgressId == cpId &&
  c.programId == programId && c.certificate_type == ctype

/-- Outcome of the certificate-generation AJAX view. -/
structure CertificateOutcome where
  response : ApiResponse
  db : Database
deriving DecidableEq, Repr

/-- `generate_certificate_ajax` (`student_certificate_view.py`): a missing
or empty `course_progress_id` is a 400; the course progress is looked up
with `is_completed=True`, a miss being the 404
"Course progress not found or not completed"; then one certificate per
type is created via `get_or_create`, all sharing `base_certificate_number`
(in the view, `CERT-` plus a random UUID fragment).  A dangling purchase
foreign key cannot occur in the real database; it is mapped to the
generic 500 handler. -/
def generate_certificate_ajax (db : Database)
    (course_progress_id : Option Nat) (base_certificate_number : String) :
    CertificateOutcome :=
  match course_progress_id with
  | none => ⟨ApiResponse.badRequest "Course progress ID is required", db⟩
  | some cpid =>
    match db.course_progress.find? (fun (c : UserCourseProgress) =>
        c.id == cpid && c.is_completed) with
    | none =>
      ⟨ApiResponse.notFound "Course progress not found or not completed", db⟩
    | some cp =>
      match db.purchases.find? (fun (p : UserPurchase) => p.id == cp.purchaseId) with
      | none =>
        ⟨ApiResponse.serverError "Error generating certificates: missing purchase", db⟩
      | some purchase =>
        let types := certificate_types_for purchase.require_goldpass
        let certs := types.foldl (fun (acc : List UserCertificate) (ctype : String) =>
          if acc.any (certMatches cp.userId cp.id purchase.programId ctype) then acc
          else acc ++ [mkCertificate cp.userId cp.id purchase.programId ctype
            base_certificate_number])
          db.certificates
        ⟨ApiResponse.success, { db with certificates := certs }⟩

/-! ### Concrete fixtures used to instantiate the theorems -/

/-- A 100-second video topic of program 1. -/
def exTopic : Topic :=
  { id := 1, programId := 1, topic_title := "Intro", video_duration := some "1:40" }

/-- Program 1, no discount. -/
def exProgram : Program :=
  { id := 1, title := "Course", price := 100, discount_percentage := 0 }

/-- A completed purchase of program 1 by user 1. -/
def exPurchase : UserPurchase :=
  { id := 1, userId := 1, programId := 1, status := PurchaseStatus.completed,
    amount_paid := 100, require_goldpass := false }

/-- Fresh database: one program, one purchase, one topic, no progress. -/
def exDb : Database :=
  { programs := [exProgram], purchases := [exPurchase], topics := [exTopic],
    topic_progress := [], course_progress := [], certificates := [] }

/-- A half-watched topic-progress row for user 1 on topic 1. -/
def exRow50 : UserTopicProgress :=
  { userId := 1, purchaseId := 1, topicId := 1,
    status := ProgressStatus.in_progress, watch_time_seconds := 50,
    total_duration_seconds := 100, completion_percentage := 50,
    started_at := some 1, completed_at := none, last_watched_at := 1 }

/-- Database with the half-watched row present. -/
def exDb2 : Database := { exDb with topic_progress := [exRow50] }

/-- A fully completed topic-progress row (watch 100 of 100). -/
def exRowDone : UserTopicProgress :=
  { userId := 1, purchaseId := 1, topicId := 1,
    status := ProgressStatus.completed, watch_time_seconds := 100,
    total_duration_seconds := 100, completion_percentage := 100,
    started_at := some 0, completed_at := some 0, last_watched_at := 0 }

/-- A completed course-progress row with id 7. -/
def exCourseDone : UserCourseProgress :=
  { id := 7, userId := 1, purchaseId := 1, total_topics := 1,
    completed_topics := 1, in_progress_topics := 0,
    total_watch_time_seconds := 95, completion_percentage := 100,
    is_completed := true, started_at := some 1, completed_at := some 2,
    last_activity_at := 2 }

/-- Database with the completed course-progress row present. -/
def exDb3 : Database := { exDb with course_progress := [exCourseDone] }

/-- The topic row `/learning/update-progress` on `exDb` with watch time 95
at clock 5 stores and echoes back. -/
def exRowAfter : UserTopicProgress :=
  { userId := 1, purchaseId := 1, topicId := 1,
    status := ProgressStatus.completed, watch_time_seconds := 95,
    total_duration_seconds := 100, completion_percentage := 95,
    started_at := none, completed_at := some 5, last_watched_at := 5 }

/-- The course row that call stores and echoes back. -/
def exCourseAfter : UserCourseProgress :=
  { id := 1, userId := 1, purchaseId := 1, total_topics := 1,
    completed_topics := 1, in_progress_topics := 0,
    total_watch_time_seconds := 95, completion_percentage := 100,
    is_completed := true, started_at := none, completed_at := none,
    last_activity_at := 5 }

/-- The database invariant of `unique_user_program_purchase`: no two
purchase rows share a `(user, program)` pair. -/
def PurchaseUnique (l : List UserPurchase) : Prop :=
  l.Pairwise (fun p1 p2 => ¬(p1.userId = p2.userId ∧ p1.programId = p2.programId))

/-- The database invariant of `unique_user_topic_progress`: no two
topic-progress rows share a `(user, topic)` pair. -/
def TPUnique (l : List UserTopicProgress) : Prop :=
  l.Pairwise (fun r1 r2 => ¬(r1.userId = r2.userId ∧ r1.topicId = r2.topicId))

/-! ### Helper lemmas -/

lemma effectiveDuration_pos (t : Topic) : 0 < effectiveDuration t := by
  simp only [effectiveDuration]
  split
  · split <;> omega
  · omega

lemma capPercent_nonneg (w d : Nat) : 0 ≤ capPercent w d :=
  le_min (by norm_num) (by positivity)

lemma capPercent_le_100 (w d : Nat) : capPercent w d ≤ 100 :=
  min_le_left _ _

lemma capPercent_ge_90 (w d : Nat) (h : (9 : ℚ) / 10 ≤ (w : ℚ) / (d : ℚ)) :
    (90 : ℚ) ≤ capPercent w d := by
  refine le_min (by norm_num) ?_
  have h2 := mul_le_mul_of_nonneg_right h (by norm_num : (0 : ℚ) ≤ 100)
  linarith

lemma capPercent_mono (w1 w2 d : Nat) (h : w1 ≤ w2) :
    capPercent w1 d ≤ capPercent w2 d := by
  refine min_le_min le_rfl ?_
  have h' : (w1 : ℚ) ≤ (w2 : ℚ) := by exact_mod_cast h
  have hd' : (0 : ℚ) ≤ (d : ℚ) := by positivity
  gcongr

lemma applyWatchUpdate_watch (r : UserTopicProgress) (s d now : Nat) :
    (applyWatchUpdate r s d now).watch_time_seconds =
      max r.watch_time_seconds s := by
  simp only [applyWatchUpdate]
  split
  · rfl
  · split <;> rfl

lemma applyWatchUpdate_duration (r : UserTopicProgress) (s d now : Nat) :
    (applyWatchUpdate r s d now).total_duration_seconds = d := by
  simp only [applyWatchUpdate]
  split
  · rfl
  · split <;> rfl

lemma applyWatchUpdate_completion (r : UserTopicProgress) (s d now : Nat) :
    (applyWatchUpdate r s d now).completion_percentage =
      capPercent (max r.watch_time_seconds s) d := by
  simp only [applyWatchUpdate]
  split
  · rfl
  · split <;> rfl

lemma applyWatchUpdate_userId (r : UserTopicProgress) (s d now : Nat) :
    (applyWatchUpdate r s d now).userId = r.userId := by
  simp only [applyWatchUpdate]
  split
  · rfl
  · split <;> rfl

lemma applyWatchUpdate_purchaseId (r : UserTopicProgress) (s d now : Nat) :
    (applyWatchUpdate r s d now).purchaseId = r.purchaseId := by
  simp only [applyWatchUpdate]
  split
  · rfl
  · split <;> rfl

lemma applyWatchUpdate_topicId (r : UserTopicProgress) (s d now : Nat) :
    (applyWatchUpdate r s d now).topicId = r.topicId := by
  simp only [applyWatchUpdate]
  split
  · rfl
  · split <;> rfl

lemma applyWatchUpdate_status_completed_of (r : UserTopicProgress)
    (s d now : Nat)
    (h : (90 : ℚ) ≤ capPercent (max r.watch_time_seconds s) d) :
    (applyWatchUpdate r s d now).status = ProgressStatus.completed := by
  simp only [applyWatchUpdate]
  split
  · rfl
  · rename_i hc
    exact absurd h hc

lemma applyWatchUpdate_status_in_progress_of (r : UserTopicProgress)
    (s d now : Nat)
    (h1 : ¬ (90 : ℚ) ≤ capPercent (max r.watch_time_seconds s) d)
    (h2 : 0 < capPercent (max r.watch_time_seconds s) d) :
    (applyWatchUpdate r s d now).status = ProgressStatus.in_progress := by
  simp only [applyWatchUpdate]
  split
  · rename_i hc
    exact absurd hc h1
  · rfl

lemma applyWatchUpdate_status_stay (r : UserTopicProgress) (s d now : Nat)
    (h1 : ¬ (90 : ℚ) ≤ capPercent (max r.watch_time_seconds s) d)
    (h2 : ¬ 0 < capPercent (max r.watch_time_seconds s) d) :
    (applyWatchUpdate r s d now).status = r.status := by
  simp only [applyWatchUpdate]
  split
  · rename_i hc
    exact absurd hc h1
  · rfl

lemma update_progress_watch (p : UserTopicProgress) (w : Nat)
    (td : Option Nat) (now : Nat) :
    (p.update_progress w td now).watch_time_seconds = w := by
  simp only [UserTopicProgress.update_progress]
  split
  · rfl
  · split <;> rfl

lemma update_progress_duration (p : UserTopicProgress) (w : Nat)
    (td : Option Nat) (now : Nat) :
    (p.update_progress w td now).total_duration_seconds = p.newDuration td := by
  simp only [UserTopicProgress.update_progress]
  split
  · rfl
  · split <;> rfl

lemma update_progress_completion (p : UserTopicProgress) (w : Nat)
    (td : Option Nat) (now : Nat) :
    (p.update_progress w td now).completion_percentage =
      p.newCompletion w td := by
  simp only [UserTopicProgress.update_progress]
  split
  · rfl
  · split <;> rfl

lemma update_progress_status_completed_of (p : UserTopicProgress) (w : Nat)
    (td : Option Nat) (now : Nat)
    (h : (90 : ℚ) ≤ p.newCompletion w td) :
    (p.update_progress w td now).status = ProgressStatus.completed := by
  simp only [UserTopicProgress.update_progress]
  split
  · rfl
  · rename_i hc
    exact absurd h hc

lemma newCompletion_of_pos (p : UserTopicProgress) (w : Nat)
    (td : Option Nat) (h : p.newDuration td > 0) :
    p.newCompletion w td = capPercent w (p.newDuration td) := by
  simp only [UserTopicProgress.newCompletion]
  rw [if_pos h]

lemma course_update_spec (cp : UserCourseProgress)
    (tbl : List UserTopicProgress) (now : Nat) :
    (cp.update_progress tbl now).total_topics =
      (tbl.filter (fun (r : UserTopicProgress) =>
        r.userId == cp.userId && r.purchaseId == cp.purchaseId)).length ∧
    (cp.update_progress tbl now).completed_topics =
      ((tbl.filter (fun (r : UserTopicProgress) =>
        r.userId == cp.userId && r.purchaseId == cp.purchaseId)).filter
        (fun (r : UserTopicProgress) => r.status == ProgressStatus.completed)).length ∧
    (cp.update_progress tbl now).completion_percentage =
      (if (tbl.filter (fun (r : UserTopicProgress) =>
            r.userId == cp.userId && r.purchaseId == cp.purchaseId)).length > 0 then
        ((((tbl.filter (fun (r : UserTopicProgress) =>
          r.userId == cp.userId && r.purchaseId == cp.purchaseId)).filter
          (fun (r : UserTopicProgress) => r.status == ProgressStatus.completed)).length : ℚ) /
        (((tbl.filter (fun (r : UserTopicProgress) =>
          r.userId == cp.userId && r.purchaseId == cp.purchaseId)).length : ℚ)) * 100)
      else cp.completion_percentage) := by
  simp only [UserCourseProgress.update_progress]
  refine ⟨?_, ?_, ?_⟩ <;> (split <;> split <;> split <;> rfl)

lemma tpMatches_eq (u P T : Nat) (r : UserTopicProgress)
    (h : tpMatches u P T r = true) :
    r.userId = u ∧ r.purchaseId = P ∧ r.topicId = T := by
  simp only [tpMatches, Bool.and_eq_true, beq_iff_eq] at h
  exact ⟨h.1.1, h.1.2, h.2⟩

lemma purchase_find_ids (db : Database) (u : Nat) (data : UpdateProgressSchema)
    (purchase : UserPurchase)
    (hp : db.purchases.find? (fun (p : UserPurchase) =>
      p.id == data.purchase_id && p.userId == u &&
      p.status == PurchaseStatus.completed) = some purchase) :
    purchase.id = data.purchase_id ∧ purchase.userId = u ∧
    purchase.status = PurchaseStatus.completed ∧ purchase ∈ db.purchases := by
  have h1 := List.find?_some hp
  have h2 := List.mem_of_find?_eq_some hp
  simp only [Bool.and_eq_true, beq_iff_eq] at h1
  exact ⟨h1.1.1, h1.1.2, h1.2, h2⟩

lemma topic_find_id (db : Database) (data : UpdateProgressSchema) (topic : Topic)
    (ht : db.topics.find? (fun (t : Topic) => t.id == data.topic_id) = some topic) :
    topic.id = data.topic_id ∧ topic ∈ db.topics := by
  have h1 := List.find?_some ht
  simp only [beq_iff_eq] at h1
  exact ⟨h1, List.mem_of_find?_eq_some ht⟩

lemma courseRollup_topicRow (db : Database) (u : Nat) (P : UserPurchase)
    (savedTP : List UserTopicProgress) (now : Nat) (c : UserCourseProgress)
    (T : List UserCourseProgress) (row2 : UserTopicProgress) :
    (courseRollup db u P savedTP now c T row2).topicRow = some row2 := rfl

lemma courseRollup_db_topics (db : Database) (u : Nat) (P : UserPurchase)
    (savedTP : List UserTopicProgress) (now : Nat) (c : UserCourseProgress)
    (T : List UserCourseProgress) (row2 : UserTopicProgress) :
    (courseRollup db u P savedTP now c T row2).db.topic_progress = savedTP := rfl

lemma courseRollup_courseRow_spec (db : Database) (u : Nat) (P : UserPurchase)
    (savedTP : List UserTopicProgress) (now : Nat) (c : UserCourseProgress)
    (T : List UserCourseProgress) (row2 : UserTopicProgress) :
    ∃ c2, (courseRollup db u P savedTP now c T row2).courseRow = some c2 ∧
      c2.total_topics =
        (db.topics.filter (fun (t : Topic) => t.programId == P.programId)).length ∧
      c2.completed_topics = (savedTP.filter (fun (r : UserTopicProgress) =>
        r.userId == u && r.purchaseId == P.id &&
        r.status == ProgressStatus.completed)).length ∧
      c2.in_progress_topics = (savedTP.filter (fun (r : UserTopicProgress) =>
        r.userId == u && r.purchaseId == P.id &&
        r.status == ProgressStatus.in_progress)).length ∧
      c2.total_watch_time_seconds = ((savedTP.filter (fun (r : UserTopicProgress) =>
        r.userId == u && r.purchaseId == P.id)).map
          (fun (r : UserTopicProgress) => r.watch_time_seconds)).sum ∧
      c2.completion_percentage = (if c2.total_topics > 0 then
        ((c2.completed_topics : ℚ) / (c2.total_topics : ℚ) * 100) else 0) :=
  ⟨_, rfl, rfl, rfl, rfl, rfl, rfl⟩

lemma courseRollup_courseRow_mem (db : Database) (u : Nat) (P : UserPurchase)
    (savedTP : List UserTopicProgress) (now : Nat) (c : UserCourseProgress)
    (T : List UserCourseProgress) (row2 : UserTopicProgress)
    (x : UserCourseProgress) (hx : x ∈ T)
    (hk : (x.userId == u && x.purchaseId == P.id) = true)
    (c2 : UserCourseProgress)
    (h2 : (courseRollup db u P savedTP now c T row2).courseRow = some c2) :
    c2 ∈ (courseRollup db u P savedTP now c T row2).db.course_progress := by
  simp only [courseRollup] at h2 ⊢
  have hc2 := Option.some.inj h2
  subst hc2
  exact List.mem_map.mpr ⟨x, hx, by rw [if_pos hk]⟩

/-- Every non-success outcome of `/learning/update-progress` leaves the
database untouched. -/
lemma update_db_cases (db : Database) (u : Nat) (data : UpdateProgressSchema)
    (n : Nat) :
    (update_learning_progress db u data n).db = db ∨
    (update_learning_progress db u data n).response = ApiResponse.success := by
  unfold update_learning_progress saveAndRollup
  repeat' split
  all_goals first
    | exact Or.inl rfl
    | exact Or.inr rfl

/-- Success-path inversion for `/learning/update-progress`: a successful
call went through a found completed purchase, a found topic of the same
program, a found-or-created topic row, a found-or-created course row, and
its outcome is the corresponding `courseRollup`. -/
lemma update_success_shape (db : Database) (u : Nat)
    (data : UpdateProgressSchema) (n : Nat)
    (h : (update_learning_progress db u data n).response = ApiResponse.success) :
    ∃ (purchase : UserPurchase) (topic : Topic) (row0 : UserTopicProgress)
      (tpTable : List UserTopicProgress) (cp0 : UserCourseProgress)
      (cpTable : List UserCourseProgress),
      db.purchases.find? (fun (p : UserPurchase) =>
          p.id == data.purchase_id && p.userId == u &&
          p.status == PurchaseStatus.completed) = some purchase ∧
      db.topics.find? (fun (t : Topic) => t.id == data.topic_id) = some topic ∧
      ((db.topic_progress.find? (tpMatches u purchase.id topic.id) = some row0 ∧
        tpTable = db.topic_progress) ∨
       (row0 = freshTopicRow u purchase.id topic.id (effectiveDuration topic) n ∧
        (db.topic_progress.any (fun (r : UserTopicProgress) =>
          r.userId == u && r.topicId == topic.id)) = false ∧
        tpTable = db.topic_progress ++ [row0])) ∧
      ((db.course_progress.find? (fun (c : UserCourseProgress) =>
          c.userId == u && c.purchaseId == purchase.id) = some cp0 ∧
        cpTable = db.course_progress) ∨
       (cp0 = freshCourseRow db u purchase.id n ∧
        cpTable = db.course_progress ++ [cp0])) ∧
      update_learning_progress db u data n =
        courseRollup db u purchase
          (tpTable.map (fun (r : UserTopicProgress) =>
            if tpMatches u purchase.id topic.id r then
              applyWatchUpdate row0 data.watch_time_seconds.toNat
                (effectiveDuration topic) n
            else r))
          n cp0 cpTable
          (applyWatchUpdate row0 data.watch_time_seconds.toNat
            (effectiveDuration topic) n) := by
  by_cases h0 : data.watch_time_seconds < 0
  · unfold update_learning_progress at h
    rw [if_pos h0] at h
    simp at h
  · have e0 : update_learning_progress db u data n =
        (match db.purchases.find? (fun (p : UserPurchase) =>
            p.id == data.purchase_id && p.userId == u &&
            p.status == PurchaseStatus.completed) with
         | none =>
           ⟨ApiResponse.notFound "Purchase not found or access denied", db,
            none, none⟩
         | some purchase =>
           match db.topics.find? (fun (t : Topic) => t.id == data.topic_id) with
           | none => ⟨ApiResponse.notFound "Topic not found", db, none, none⟩
           | some topic =>
             if topic.programId ≠ purchase.programId then
               ⟨ApiResponse.badRequest "Topic does not belong to the purchased program",
                db, none, none⟩
             else
               let total_duration := effectiveDuration topic
               match db.topic_progress.find? (tpMatches u purchase.id topic.id) with
               | some row =>
                 saveAndRollup db u purchase topic total_duration row
                   db.topic_progress data n
               | none =>
                 if db.topic_progress.any (fun (r : UserTopicProgress) =>
                     r.userId == u && r.topicId == topic.id) then
                   ⟨ApiResponse.serverError "Error updating progress: IntegrityError",
                    db, none, none⟩
                 else
                   let fresh := freshTopicRow u purchase.id topic.id total_duration n
                   saveAndRollup db u purchase topic total_duration fresh
                     (db.topic_progress ++ [fresh]) data n) := by
      unfold update_learning_progress
      rw [if_neg h0]
    rw [e0] at h
    rcases hp : db.purchases.find? (fun (p : UserPurchase) =>
        p.id == data.purchase_id && p.userId == u &&
        p.status == PurchaseStatus.completed) with _ | purchase
    · simp only [hp] at h
      simp at h
    · simp only [hp] at h
      rcases ht : db.topics.find? (fun (t : Topic) => t.id == data.topic_id) with
        _ | topic
      · simp only [ht] at h
        simp at h
      · simp only [ht] at h
        by_cases hpt : topic.programId ≠ purchase.programId
        · rw [if_pos hpt] at h
          simp at h
        · rw [if_neg hpt] at h
          refine ⟨purchase, topic, ?_⟩
          rcases hr : db.topic_progress.find? (tpMatches u purchase.id topic.id)
            with _ | row
          · simp only [hr] at h
            by_cases hAny : db.topic_progress.any (fun (r : UserTopicProgress) =>
                r.userId == u && r.topicId == topic.id) = true
            · rw [if_pos hAny] at h
              simp at h
            · rw [if_neg hAny] at h
              refine ⟨freshTopicRow u purchase.id topic.id (effectiveDuration topic) n,
                db.topic_progress ++
                  [freshTopicRow u purchase.id topic.id (effectiveDuration topic) n],
                ?_⟩
              unfold saveAndRollup at h
              rcases hc : db.course_progress.find? (fun (c : UserCourseProgress) =>
                  c.userId == u && c.purchaseId == purchase.id) with _ | cp0
              · simp only [hc] at h
                by_cases hcAny : db.course_progress.any
                    (fun (c : UserCourseProgress) => c.purchaseId == purchase.id) = true
                · rw [if_pos hcAny] at h
                  simp at h
                · refine ⟨freshCourseRow db u purchase.id n,
                    db.course_progress ++ [freshCourseRow db u purchase.id n],
                    rfl, rfl, Or.inr ⟨rfl, by simpa using hAny, rfl⟩,
                    Or.inr ⟨rfl, rfl⟩, ?_⟩
                  rw [e0]
                  simp only [hp, ht]
                  rw [if_neg hpt]
                  simp only [hr]
                  rw [if_neg hAny]
                  unfold saveAndRollup
                  simp only [hc]
                  rw [if_neg hcAny]
              · refine ⟨cp0, db.course_progress, rfl, rfl,
                  Or.inr ⟨rfl, by simpa using hAny, rfl⟩, Or.inl ⟨rfl, rfl⟩, ?_⟩
                rw [e0]
                simp only [hp, ht]
                rw [if_neg hpt]
                simp only [hr]
                rw [if_neg hAny]
                unfold saveAndRollup
                simp only [hc]
          · simp only [hr] at h
            refine ⟨row, db.topic_progress, ?_⟩
            unfold saveAndRollup at h
            rcases hc : db.course_progress.find? (fun (c : UserCourseProgress) =>
                c.userId == u && c.purchaseId == purchase.id) with _ | cp0
            · simp only [hc] at h
              by_cases hcAny : db.course_progress.any
                  (fun (c : UserCourseProgress) => c.purchaseId == purchase.id) = true
              · rw [if_pos hcAny] at h
                simp at h
              · refine ⟨freshCourseRow db u purchase.id n,
                  db.course_progress ++ [freshCourseRow db u purchase.id n],
                  rfl, rfl, Or.inl ⟨rfl, rfl⟩, Or.inr ⟨rfl, rfl⟩, ?_⟩
                rw [e0]
                simp only [hp, ht]
                rw [if_neg hpt]
                simp only [hr]
                unfold saveAndRollup
                simp only [hc]
                rw [if_neg hcAny]
            · refine ⟨cp0, db.course_progress, rfl, rfl,
                Or.inl ⟨rfl, rfl⟩, Or.inl ⟨rfl, rfl⟩, ?_⟩
              rw [e0]
              simp only [hp, ht]
              rw [if_neg hpt]
              simp only [hr]
              unfold saveAndRollup
              simp only [hc]

/-! ### Claim theorems -/

/-- C1: for every topic-progress update (the model method
`UserTopicProgress.update_progress`, or the `/learning/update-progress`
endpoint) on a record whose `total_duration_seconds` is positive, if
`watch_time_seconds / total_duration_seconds ≥ 0.9` then after the update
the record's status is `completed`. -/
theorem claim_C1 (p : UserTopicProgress) (w : Nat) (td : Option Nat)
    (now : Nat) (db : Database) (u : Nat) (data : UpdateProgressSchema)
    (n : Nat) (row : UserTopicProgress) :
    (0 < (p.update_progress w td now).total_duration_seconds →
      (9 : ℚ) / 10 ≤ ((p.update_progress w td now).watch_time_seconds : ℚ) /
        ((p.update_progress w td now).total_duration_seconds : ℚ) →
      (p.update_progress w td now).status = ProgressStatus.completed) ∧
    ((update_learning_progress db u data n).response = ApiResponse.success →
      (update_learning_progress db u data n).topicRow = some row →
      0 < row.total_duration_seconds →
      (9 : ℚ) / 10 ≤ (row.watch_time_seconds : ℚ) /
        (row.total_duration_seconds : ℚ) →
      row.status = ProgressStatus.completed) := by
  constructor
  · intro hd hr
    rw [update_progress_duration] at hd
    rw [update_progress_watch, update_progress_duration] at hr
    apply update_progress_status_completed_of
    rw [newCompletion_of_pos p w td hd]
    exact capPercent_ge_90 w (p.newDuration td) hr
  · intro hs hrow hd hr
    obtain ⟨purchase, topic, row0, tpTable, cp0, cpTable, hp, ht, htp, hcp, heq⟩ :=
      update_success_shape db u data n hs
    rw [heq, courseRollup_topicRow] at hrow
    obtain rfl := Option.some.inj hrow
    rw [applyWatchUpdate_watch, applyWatchUpdate_duration] at hr
    apply applyWatchUpdate_status_completed_of
    exact capPercent_ge_90 _ _ hr

theorem claim_C1_witness :
    (exRow50.update_progress 95 (some 100) 0).status = ProgressStatus.completed ∧
    exRowAfter.status = ProgressStatus.completed :=
  ⟨(claim_C1 exRow50 95 (some 100) 0 exDb 1 ⟨1, 1, 95⟩ 5 exRowAfter).1
      (by with_unfolding_all decide) (by with_unfolding_all decide),
   (claim_C1 exRow50 95 (some 100) 0 exDb 1 ⟨1, 1, 95⟩ 5 exRowAfter).2
      (by with_unfolding_all decide) (by with_unfolding_all decide) (by with_unfolding_all decide) (by with_unfolding_all decide)⟩

/-- C2: after a recomputation of a `UserCourseProgress` record (the model
method `UserCourseProgress.update_progress`, or the
`/learning/update-progress` endpoint), when the number of total topics is
positive, `completion_percentage` equals completed topics divided by total
topics times 100. -/
theorem claim_C2 (cp : UserCourseProgress) (tbl : List UserTopicProgress)
    (now : Nat) (db : Database) (u : Nat) (data : UpdateProgressSchema)
    (n : Nat) (crow : UserCourseProgress) :
    (0 < (cp.update_progress tbl now).total_topics →
      (cp.update_progress tbl now).completion_percentage =
        ((cp.update_progress tbl now).completed_topics : ℚ) /
          ((cp.update_progress tbl now).total_topics : ℚ) * 100) ∧
    ((update_learning_progress db u data n).response = ApiResponse.success →
      (update_learning_progress db u data n).courseRow = some crow →
      0 < crow.total_topics →
      crow.completion_percentage =
        (crow.completed_topics : ℚ) / (crow.total_topics : ℚ) * 100) := by
  constructor
  · intro hd
    obtain ⟨h1, h2, h3⟩ := course_update_spec cp tbl now
    rw [h1] at hd
    rw [h3, if_pos hd, h1, h2]
  · intro hs hrow hd
    obtain ⟨purchase, topic, row0, tpTable, cp0, cpTable, hp, ht, htp, hcp, heq⟩ :=
      update_success_shape db u data n hs
    rw [heq] at hrow
    obtain ⟨c2, hc2, -, -, -, -, h5⟩ := courseRollup_courseRow_spec db u purchase
      (tpTable.map (fun (r : UserTopicProgress) =>
        if tpMatches u purchase.id topic.id r then
          applyWatchUpdate row0 data.watch_time_seconds.toNat
            (effectiveDuration topic) n
        else r)) n cp0 cpTable
      (applyWatchUpdate row0 data.watch_time_seconds.toNat
        (effectiveDuration topic) n)
    rw [hc2] at hrow
    obtain rfl := Option.some.inj hrow
    rw [h5, if_pos hd]

theorem claim_C2_witness :
    (exCourseDone.update_progress [exRow50] 3).completion_percentage =
      ((exCourseDone.update_progress [exRow50] 3).completed_topics : ℚ) /
        ((exCourseDone.update_progress [exRow50] 3).total_topics : ℚ) * 100 ∧
    exCourseAfter.completion_percentage =
      (exCourseAfter.completed_topics : ℚ) / (exCourseAfter.total_topics : ℚ) * 100 :=
  ⟨(claim_C2 exCourseDone [exRow50] 3 exDb 1 ⟨1, 1, 95⟩ 5 exCourseAfter).1
      (by with_unfolding_all decide),
   (claim_C2 exCourseDone [exRow50] 3 exDb 1 ⟨1, 1, 95⟩ 5 exCourseAfter).2
      (by with_unfolding_all decide) (by with_unfolding_all decide) (by with_unfolding_all decide)⟩

/-- C3: a successful `/learning/update-progress` call recomputes the
purchase's `UserCourseProgress` from the `UserTopicProgress` rows:
afterwards `completed_topics` / `in_progress_topics` count that user's and
purchase's topic-progress rows with status completed / in-progress, and
`total_watch_time_seconds` sums `watch_time_seconds` over those rows. -/
theorem claim_C3 (db : Database) (u : Nat) (data : UpdateProgressSchema)
    (n : Nat)
    (hs : (update_learning_progress db u data n).response = ApiResponse.success) :
    ∃ (purchase : UserPurchase) (crow : UserCourseProgress),
      db.purchases.find? (fun (p : UserPurchase) =>
        p.id == data.purchase_id && p.userId == u &&
        p.status == PurchaseStatus.completed) = some purchase ∧
      (update_learning_progress db u data n).courseRow = some crow ∧
      crow ∈ (update_learning_progress db u data n).db.course_progress ∧
      crow.completed_topics =
        ((update_learning_progress db u data n).db.topic_progress.filter
          (fun (r : UserTopicProgress) => r.userId == u &&
            r.purchaseId == purchase.id &&
            r.status == ProgressStatus.completed)).length ∧
      crow.in_progress_topics =
        ((update_learning_progress db u data n).db.topic_progress.filter
          (fun (r : UserTopicProgress) => r.userId == u &&
            r.purchaseId == purchase.id &&
            r.status == ProgressStatus.in_progress)).length ∧
      crow.total_watch_time_seconds =
        (((update_learning_progress db u data n).db.topic_progress.filter
          (fun (r : UserTopicProgress) => r.userId == u &&
            r.purchaseId == purchase.id)).map
          (fun (r : UserTopicProgress) => r.watch_time_seconds)).sum := by
  obtain ⟨purchase, topic, row0, tpTable, cp0, cpTable, hp, ht, htp, hcp, heq⟩ :=
    update_success_shape db u data n hs
  obtain ⟨c2, hc2, ha, hb, hcl, hd2, he⟩ := courseRollup_courseRow_spec db u purchase
    (tpTable.map (fun (r : UserTopicProgress) =>
      if tpMatches u purchase.id topic.id r then
        applyWatchUpdate row0 data.watch_time_seconds.toNat
          (effectiveDuration topic) n
      else r)) n cp0 cpTable
    (applyWatchUpdate row0 data.watch_time_seconds.toNat
      (effectiveDuration topic) n)
  refine ⟨purchase, c2, hp, ?_, ?_, ?_, ?_, ?_⟩
  · rw [heq]
    exact hc2
  · rw [heq]
    rcases hcp with ⟨hfound, hTeq⟩ | ⟨hfresh, hTeq⟩
    · refine courseRollup_courseRow_mem _ _ _ _ _ _ _ _ cp0 ?_ ?_ c2 hc2
      · rw [hTeq]
        exact List.mem_of_find?_eq_some hfound
      · have hk := List.find?_some hfound
        simpa using hk
    · refine courseRollup_courseRow_mem _ _ _ _ _ _ _ _ cp0 ?_ ?_ c2 hc2
      · rw [hTeq]
        exact List.mem_append_right _ (List.mem_cons_self _ _)
      · rw [hfresh]
        simp [freshCourseRow]
  · rw [heq, courseRollup_db_topics]
    exact hb
  · rw [heq, courseRollup_db_topics]
    exact hcl
  · rw [heq, courseRollup_db_topics]
    exact hd2

theorem claim_C3_witness :
    ∃ (purchase : UserPurchase) (crow : UserCourseProgress),
      exDb.purchases.find? (fun (p : UserPurchase) =>
        p.id == (1 : Nat) && p.userId == (1 : Nat) &&
        p.status == PurchaseStatus.completed) = some purchase ∧
      (update_learning_progress exDb 1 ⟨1, 1, 95⟩ 5).courseRow = some crow ∧
      crow ∈ (update_learning_progress exDb 1 ⟨1, 1, 95⟩ 5).db.course_progress ∧
      crow.completed_topics =
        ((update_learning_progress exDb 1 ⟨1, 1, 95⟩ 5).db.topic_progress.filter
          (fun (r : UserTopicProgress) => r.userId == (1 : Nat) &&
            r.purchaseId == purchase.id &&
            r.status == ProgressStatus.completed)).length ∧
      crow.in_progress_topics =
        ((update_learning_progress exDb 1 ⟨1, 1, 95⟩ 5).db.topic_progress.filter
          (fun (r : UserTopicProgress) => r.userId == (1 : Nat) &&
            r.purchaseId == purchase.id &&
            r.status == ProgressStatus.in_progress)).length ∧
      crow.total_watch_time_seconds =
        (((update_learning_progress exDb 1 ⟨1, 1, 95⟩ 5).db.topic_progress.filter
          (fun (r : UserTopicProgress) => r.userId == (1 : Nat) &&
            r.purchaseId == purchase.id)).map
          (fun (r : UserTopicProgress) => r.watch_time_seconds)).sum :=
  claim_C3 exDb 1 ⟨1, 1, 95⟩ 5 (by with_unfolding_all decide)

/-- C4 (counterexample): the claim "status only moves forward" fails on
the code: `UserTopicProgress.update_progress` overwrites the watch time,
so calling it with a smaller watch time moves a completed record back to
in-progress. -/
theorem claim_C4_counterexample :
    exRowDone.status = ProgressStatus.completed ∧
    (exRowDone.update_progress 10 none 0).status =
      ProgressStatus.in_progress := by
  with_unfolding_all decide

/-- C4 (amended): under the `/learning/update-progress` endpoint's row
update (which maxes the stored watch time), with the topic's effective
duration unchanged, the status rank along
not_started → in_progress → completed never decreases, provided a
completed record has at least 90% capped watch percentage — an invariant
the update itself preserves, so it holds along any update sequence.  The
model method `UserTopicProgress.update_progress` violates the original
claim (see the counterexample). -/
theorem claim_C4 (r : UserTopicProgress) (s d now : Nat)
    (hinv : r.status = ProgressStatus.completed →
      (90 : ℚ) ≤ capPercent r.watch_time_seconds d) :
    r.status.rank ≤ ((applyWatchUpdate r s d now).status).rank ∧
    ((applyWatchUpdate r s d now).status = ProgressStatus.completed →
      (90 : ℚ) ≤ capPercent (applyWatchUpdate r s d now).watch_time_seconds d) := by
  have hmono : capPercent r.watch_time_seconds d ≤
      capPercent (max r.watch_time_seconds s) d :=
    capPercent_mono _ _ _ (le_max_left _ _)
  by_cases h90 : (90 : ℚ) ≤ capPercent (max r.watch_time_seconds s) d
  · have hst := applyWatchUpdate_status_completed_of r s d now h90
    constructor
    · rw [hst]
      cases r.status <;> simp [ProgressStatus.rank]
    · intro _
      rw [applyWatchUpdate_watch]
      exact h90
  · by_cases h0 : 0 < capPercent (max r.watch_time_seconds s) d
    · have hst := applyWatchUpdate_status_in_progress_of r s d now h90 h0
      constructor
      · rw [hst]
        cases hr : r.status
        · simp [ProgressStatus.rank]
        · simp [ProgressStatus.rank]
        · exact absurd (le_trans (hinv hr) hmono) h90
      · intro hcomp
        rw [hst] at hcomp
        simp at hcomp
    · have hst := applyWatchUpdate_status_stay r s d now h90 h0
      constructor
      · rw [hst]
      · intro hcomp
        rw [hst] at hcomp
        rw [applyWatchUpdate_watch]
        exact le_trans (hinv hcomp) hmono

theorem claim_C4_witness :
    exRowDone.status.rank ≤ ((applyWatchUpdate exRowDone 10 100 3).status).rank ∧
    ((applyWatchUpdate exRowDone 10 100 3).status = ProgressStatus.completed →
      (90 : ℚ) ≤ capPercent (applyWatchUpdate exRowDone 10 100 3).watch_time_seconds 100) :=
  claim_C4 exRowDone 10 100 3 (fun _ => by with_unfolding_all decide)

/-- C9: every operation that writes a completion percentage
(`UserTopicProgress.watch_percentage`, `UserTopicProgress.update_progress`
starting from an in-range record, and the `/learning/update-progress`
endpoint) keeps the value in the closed interval [0, 100], the ratio being
capped with `min(100, ·)` over non-negative integer watch times. -/
theorem claim_C9 (p q : UserTopicProgress) (w : Nat) (td : Option Nat)
    (now : Nat) (db : Database) (u : Nat) (data : UpdateProgressSchema)
    (n : Nat) (row : UserTopicProgress) :
    (0 ≤ p.watch_percentage ∧ p.watch_percentage ≤ 100) ∧
    (0 ≤ q.completion_percentage → q.completion_percentage ≤ 100 →
      0 ≤ (q.update_progress w td now).completion_percentage ∧
      (q.update_progress w td now).completion_percentage ≤ 100) ∧
    ((update_learning_progress db u data n).response = ApiResponse.success →
      (update_learning_progress db u data n).topicRow = some row →
      0 ≤ row.completion_percentage ∧ row.completion_percentage ≤ 100) := by
  refine ⟨?_, ?_, ?_⟩
  · unfold UserTopicProgress.watch_percentage
    split
    · norm_num
    · exact ⟨capPercent_nonneg _ _, capPercent_le_100 _ _⟩
  · intro hl hu
    rw [update_progress_completion]
    unfold UserTopicProgress.newCompletion
    split
    · exact ⟨capPercent_nonneg _ _, capPercent_le_100 _ _⟩
    · exact ⟨hl, hu⟩
  · intro hs hrow
    obtain ⟨purchase, topic, row0, tpTable, cp0, cpTable, hp, ht, htp, hcp, heq⟩ :=
      update_success_shape db u data n hs
    rw [heq, courseRollup_topicRow] at hrow
    obtain rfl := Option.some.inj hrow
    rw [applyWatchUpdate_completion]
    exact ⟨capPercent_nonneg _ _, capPercent_le_100 _ _⟩

theorem claim_C9_witness :
    (0 ≤ exRow50.watch_percentage ∧ exRow50.watch_percentage ≤ 100) ∧
    (0 ≤ (exRow50.update_progress 200 (some 100) 0).completion_percentage ∧
      (exRow50.update_progress 200 (some 100) 0).completion_percentage ≤ 100) ∧
    (0 ≤ exRowAfter.completion_percentage ∧
      exRowAfter.completion_percentage ≤ 100) := by
  obtain ⟨a, b, c⟩ :=
    claim_C9 exRow50 exRow50 200 (some 100) 0 exDb 1 ⟨1, 1, 95⟩ 5 exRowAfter
  exact ⟨a, b (by with_unfolding_all decide) (by with_unfolding_all decide), c (by with_unfolding_all decide) (by with_unfolding_all decide)⟩

/-- C5: at most one `UserPurchase` per (user, program) — the `/purchase`
endpoint preserves the `unique_user_program_purchase` invariant — and a
purchase request from a user who already has a purchase of the program is
answered with an error response and leaves the purchase table unchanged. -/
theorem claim_C5 (db : Database) (u pid : Nat) (pay : Bool) (now : Nat) :
    (PurchaseUnique db.purchases →
      PurchaseUnique (purchase_course db u pid pay now).db.purchases) ∧
    ((∃ p ∈ db.purchases, p.userId = u ∧ p.programId = pid) →
      (purchase_course db u pid pay now).response ≠ ApiResponse.success ∧
      (purchase_course db u pid pay now).db.purchases = db.purchases) := by
  unfold purchase_course
  repeat' split
  all_goals try exact ⟨fun h => h, fun _ => ⟨by simp, rfl⟩⟩
  rename_i program hprog hscr hcomp hpay hAny
  have hpid : program.id = pid := by
    have hk := List.find?_some hprog
    simpa [beq_iff_eq] using hk
  constructor
  · intro hu
    unfold PurchaseUnique at hu ⊢
    rw [List.pairwise_append]
    refine ⟨hu, by simp, ?_⟩
    intro a ha b hb
    rw [List.mem_singleton] at hb
    subst hb
    rintro ⟨h1, h2⟩
    apply hAny
    refine List.any_eq_true.mpr ⟨a, ha, ?_⟩
    simp only [Bool.and_eq_true, beq_iff_eq]
    exact ⟨h1, h2⟩
  · rintro ⟨p, hpmem, hpu, hpp⟩
    exfalso
    apply hAny
    refine List.any_eq_true.mpr ⟨p, hpmem, ?_⟩
    simp only [Bool.and_eq_true, beq_iff_eq]
    exact ⟨hpu, hpp.trans hpid.symm⟩

theorem claim_C5_witness :
    PurchaseUnique (purchase_course exDb 1 1 true 0).db.purchases ∧
    (purchase_course exDb 1 1 true 0).response ≠ ApiResponse.success ∧
    (purchase_course exDb 1 1 true 0).db.purchases = exDb.purchases :=
  ⟨(claim_C5 exDb 1 1 true 0).1 (by unfold PurchaseUnique; decide),
   ((claim_C5 exDb 1 1 true 0).2
      ⟨exPurchase, by decide, rfl, rfl⟩).1,
   ((claim_C5 exDb 1 1 true 0).2
      ⟨exPurchase, by decide, rfl, rfl⟩).2⟩

lemma mem_certFold (uid cpId pgId : Nat) (num : String) :
    ∀ (types : List String) (acc : List UserCertificate)
      (cert : UserCertificate),
      cert ∈ types.foldl (fun (acc2 : List UserCertificate) (ctype : String) =>
        if acc2.any (certMatches uid cpId pgId ctype) then acc2
        else acc2 ++ [mkCertificate uid cpId pgId ctype num]) acc →
      cert ∈ acc ∨ cert.courseProgressId = cpId := by
  intro types
  induction types with
  | nil =>
    intro acc cert h
    exact Or.inl h
  | cons t ts ih =>
    intro acc cert h
    rw [List.foldl_cons] at h
    rcases ih _ cert h with hmem | hnew
    · by_cases hany : (acc.any (certMatches uid cpId pgId t)) = true
      · rw [if_pos hany] at hmem
        exact Or.inl hmem
      · rw [if_neg hany] at hmem
        rcases List.mem_append.mp hmem with h1 | h2
        · exact Or.inl h1
        · have h3 : cert = mkCertificate uid cpId pgId t num := by
            simpa using h2
          right
          rw [h3]
          rfl
    · exact Or.inr hnew

/-- C6: certificate generation is gated on completion: the dashboard view
creates `UserCertificate` rows only for a `UserCourseProgress` whose
`is_completed` flag is true; for an id that does not exist or is not
completed it answers 404 and creates nothing. -/
theorem claim_C6 (db : Database) (cpid : Nat) (certnum : String) :
    ((¬ ∃ c ∈ db.course_progress, c.id = cpid ∧ c.is_completed = true) →
      (generate_certificate_ajax db (some cpid) certnum).response =
        ApiResponse.notFound "Course progress not found or not completed" ∧
      (generate_certificate_ajax db (some cpid) certnum).db.certificates =
        db.certificates) ∧
    (∀ cert ∈ (generate_certificate_ajax db (some cpid) certnum).db.certificates,
      cert ∈ db.certificates ∨
      ∃ c ∈ db.course_progress, c.id = cert.courseProgressId ∧
        c.is_completed = true) := by
  constructor
  · intro hno
    have hfind : db.course_progress.find? (fun (c : UserCourseProgress) =>
        c.id == cpid && c.is_completed) = none := by
      rw [List.find?_eq_none]
      intro c hc
      simp only [Bool.and_eq_true, beq_iff_eq]
      rintro ⟨h1, h2⟩
      exact hno ⟨c, hc, h1, h2⟩
    unfold generate_certificate_ajax
    simp [hfind]
  · intro cert hcert
    unfold generate_certificate_ajax at hcert
    rcases hfind : db.course_progress.find? (fun (c : UserCourseProgress) =>
        c.id == cpid && c.is_completed) with _ | cp
    · simp only [hfind] at hcert
      exact Or.inl hcert
    · simp only [hfind] at hcert
      rcases hpp : db.purchases.find?
          (fun (p : UserPurchase) => p.id == cp.purchaseId) with _ | purchase
      · simp only [hpp] at hcert
        exact Or.inl hcert
      · simp only [hpp] at hcert
        rcases mem_certFold cp.userId cp.id purchase.programId certnum
            (certificate_types_for purchase.require_goldpass)
            db.certificates cert hcert with hin | hnew
        · exact Or.inl hin
        · right
          have hkey := List.find?_some hfind
          simp only [Bool.and_eq_true, beq_iff_eq] at hkey
          exact ⟨cp, List.mem_of_find?_eq_some hfind, hnew.symm, hkey.2⟩

theorem claim_C6_witness :
    (generate_certificate_ajax exDb3 (some 99) "CERT-A").response =
      ApiResponse.notFound "Course progress not found or not completed" ∧
    (generate_certificate_ajax exDb3 (some 99) "CERT-A").db.certificates =
      exDb3.certificates :=
  (claim_C6 exDb3 99 "CERT-A").1 (by decide)

/-- C7: at most one `UserTopicProgress` row per (user, topic):
`/learning/update-progress` preserves the `unique_user_topic_progress`
invariant, and when a row for the user and topic already exists the call
updates it in place rather than inserting (the table length is
unchanged). -/
theorem claim_C7 (db : Database) (u : Nat) (data : UpdateProgressSchema)
    (n : Nat) (hu : TPUnique db.topic_progress) :
    TPUnique (update_learning_progress db u data n).db.topic_progress ∧
    ((∃ r ∈ db.topic_progress, r.userId = u ∧ r.topicId = data.topic_id) →
      (update_learning_progress db u data n).db.topic_progress.length =
        db.topic_progress.length) := by
  rcases update_db_cases db u data n with hun | hs
  · rw [hun]
    exact ⟨hu, fun _ => rfl⟩
  · obtain ⟨purchase, topic, row0, tpTable, cp0, cpTable, hp, ht, htp, hcp, heq⟩ :=
      update_success_shape db u data n hs
    obtain ⟨htid, -⟩ := topic_find_id db data topic ht
    have hrow0 : row0.userId = u ∧ row0.topicId = topic.id := by
      rcases htp with ⟨hfound, -⟩ | ⟨hfresh, -, -⟩
      · obtain ⟨h1, -, h3⟩ := tpMatches_eq _ _ _ _ (List.find?_some hfound)
        exact ⟨h1, h3⟩
      · rw [hfresh]
        exact ⟨rfl, rfl⟩
    have hkeys : ∀ r : UserTopicProgress,
        ((if tpMatches u purchase.id topic.id r then
            applyWatchUpdate row0 data.watch_time_seconds.toNat
              (effectiveDuration topic) n
          else r).userId = r.userId ∧
         (if tpMatches u purchase.id topic.id r then
            applyWatchUpdate row0 data.watch_time_seconds.toNat
              (effectiveDuration topic) n
          else r).topicId = r.topicId) := by
      intro r
      by_cases hm : tpMatches u purchase.id topic.id r = true
      · obtain ⟨hm1, -, hm3⟩ := tpMatches_eq _ _ _ _ hm
        rw [if_pos hm, applyWatchUpdate_userId, applyWatchUpdate_topicId,
          hrow0.1, hrow0.2, hm1, hm3]
        exact ⟨rfl, rfl⟩
      · rw [if_neg hm]
        exact ⟨rfl, rfl⟩
    constructor
    · rw [heq, courseRollup_db_topics]
      have htpu : TPUnique tpTable := by
        rcases htp with ⟨-, hTeq⟩ | ⟨hfresh, hany, hTeq⟩
        · rw [hTeq]
          exact hu
        · rw [hTeq]
          unfold TPUnique at hu ⊢
          rw [List.pairwise_append]
          refine ⟨hu, by simp, ?_⟩
          intro a ha b hb
          have hb' : b = row0 := by simpa using hb
          subst hb'
          rintro ⟨hau, hat⟩
          have hatrue : db.topic_progress.any (fun (r : UserTopicProgress) =>
              r.userId == u && r.topicId == topic.id) = true := by
            refine List.any_eq_true.mpr ⟨a, ha, ?_⟩
            simp only [Bool.and_eq_true, beq_iff_eq]
            exact ⟨hau.trans hrow0.1, hat.trans hrow0.2⟩
          rw [hany] at hatrue
          exact absurd hatrue (by decide)
      unfold TPUnique at htpu ⊢
      refine List.Pairwise.map _ ?_ htpu
      intro a b hab
      dsimp only
      obtain ⟨ha1, ha2⟩ := hkeys a
      obtain ⟨hb1, hb2⟩ := hkeys b
      rw [ha1, ha2, hb1, hb2]
      exact hab
    · rintro ⟨r, hr, hru, hrt⟩
      rw [heq, courseRollup_db_topics]
      rcases htp with ⟨-, hTeq⟩ | ⟨hfresh, hany, hTeq⟩
      · rw [hTeq, List.length_map]
      · exfalso
        have hatrue : db.topic_progress.any (fun (x : UserTopicProgress) =>
            x.userId == u && x.topicId == topic.id) = true := by
          refine List.any_eq_true.mpr ⟨r, hr, ?_⟩
          simp only [Bool.and_eq_true, beq_iff_eq]
          exact ⟨hru, hrt.trans htid.symm⟩
        rw [hany] at hatrue
        exact absurd hatrue (by decide)

theorem claim_C7_witness :
    TPUnique (update_learning_progress exDb2 1 ⟨1, 1, 60⟩ 9).db.topic_progress ∧
    (update_learning_progress exDb2 1 ⟨1, 1, 60⟩ 9).db.topic_progress.length =
      exDb2.topic_progress.length :=
  ⟨(claim_C7 exDb2 1 ⟨1, 1, 60⟩ 9 (by unfold TPUnique; decide)).1,
   (claim_C7 exDb2 1 ⟨1, 1, 60⟩ 9 (by unfold TPUnique; decide)).2
      ⟨exRow50, by decide, rfl, rfl⟩⟩

/-- C8: `/learning/update-progress` never decreases a stored watch time:
for an existing row, after a successful call the stored value is the
maximum of the previous value and the submitted one (hence repeated calls
with the same input are idempotent on that field). -/
theorem claim_C8 (db : Database) (u : Nat) (data : UpdateProgressSchema)
    (n : Nat) (row0 : UserTopicProgress)
    (hs : (update_learning_progress db u data n).response = ApiResponse.success)
    (hfind : db.topic_progress.find?
      (tpMatches u data.purchase_id data.topic_id) = some row0) :
    ∃ row', (update_learning_progress db u data n).topicRow = some row' ∧
      row' ∈ (update_learning_progress db u data n).db.topic_progress ∧
      row'.watch_time_seconds =
        max row0.watch_time_seconds data.watch_time_seconds.toNat := by
  obtain ⟨purchase, topic, row1, tpTable, cp0, cpTable, hp, ht, htp, hcp, heq⟩ :=
    update_success_shape db u data n hs
  obtain ⟨hpid, -, -, -⟩ := purchase_find_ids db u data purchase hp
  obtain ⟨htid, -⟩ := topic_find_id db data topic ht
  rw [← hpid, ← htid] at hfind
  rcases htp with ⟨hfound, hTeq⟩ | ⟨hfresh, hany, hTeq⟩
  · rw [hfound] at hfind
    obtain rfl := Option.some.inj hfind
    refine ⟨applyWatchUpdate row1 data.watch_time_seconds.toNat
        (effectiveDuration topic) n, ?_, ?_, applyWatchUpdate_watch _ _ _ _⟩
    · rw [heq, courseRollup_topicRow]
    · rw [heq, courseRollup_db_topics, hTeq]
      refine List.mem_map.mpr ⟨row1, List.mem_of_find?_eq_some hfound, ?_⟩
      rw [if_pos (List.find?_some hfound)]
  · exfalso
    have hmem := List.mem_of_find?_eq_some hfind
    obtain ⟨h1, -, h3⟩ := tpMatches_eq _ _ _ _ (List.find?_some hfind)
    have hatrue : db.topic_progress.any (fun (r : UserTopicProgress) =>
        r.userId == u && r.topicId == topic.id) = true := by
      refine List.any_eq_true.mpr ⟨row0, hmem, ?_⟩
      simp only [Bool.and_eq_true, beq_iff_eq]
      exact ⟨h1, h3⟩
    rw [hany] at hatrue
    exact absurd hatrue (by decide)

theorem claim_C8_witness :
    ∃ row', (update_learning_progress exDb2 1 ⟨1, 1, 30⟩ 9).topicRow = some row' ∧
      row' ∈ (update_learning_progress exDb2 1 ⟨1, 1, 30⟩ 9).db.topic_progress ∧
      row'.watch_time_seconds =
        max exRow50.watch_time_seconds (Int.toNat 30) :=
  claim_C8 exDb2 1 ⟨1, 1, 30⟩ 9 exRow50 (by with_unfolding_all decide)
    (by decide)

/-- C10: calling `/learning/update-progress` with a negative
`watch_time_seconds` yields the 400 response "Invalid watch time value"
before any lookup or write: the database is unchanged. -/
theorem claim_C10 (db : Database) (u : Nat) (data : UpdateProgressSchema)
    (n : Nat) (h : data.watch_time_seconds < 0) :
    (update_learning_progress db u data n).response =
      ApiResponse.badRequest "Invalid watch time value" ∧
    (update_learning_progress db u data n).db = db := by
  unfold update_learning_progress
  rw [if_pos h]
  exact ⟨rfl, rfl⟩

theorem claim_C10_witness :
    (update_learning_progress exDb 1 ⟨1, 1, -5⟩ 0).response =
      ApiResponse.badRequest "Invalid watch time value" ∧
    (update_learning_progress exDb 1 ⟨1, 1, -5⟩ 0).db = exDb :=
  claim_C10 exDb 1 ⟨1, 1, -5⟩ 0 (by with_unfolding_all decide)

end Topgrade
